import Mathlib

/-!
Verification of the `@hsuite/client-types` configuration validator.

The repository exports a single behavioral component: the `_Options` class
(`src/models/models/client.models.options.model.ts`), whose constructor takes
`(environment, operator, baseUrl)`, checks that `operator` is a truthy value of
JavaScript `typeof` `"object"` and that `baseUrl` is a truthy string starting
with `"http"`, throwing `Error('Invalid operator information')` or
`Error('Invalid base URL')` respectively, and otherwise assigns
`environment`, `operator` and `baseUrl` to the instance.  The declared field
`enabled` is never assigned by the constructor.

We embed JavaScript runtime values shallowly as the inductive type `JSValue`,
with `typeof` and truthiness given their JavaScript semantics, and embed the
constructor as a function into `Except String OptionsInstance`, where the
error carries the thrown `Error`'s message and a never-assigned instance field
reads as `vUndefined` (the value an unassigned property yields in JavaScript).
-/

/-- A JavaScript runtime value, as far as the validator can distinguish them:
`null`, `undefined`, booleans, numbers, strings, plain objects (a list of
string-keyed properties) and arrays. -/
inductive JSValue where
  | vNull
  | vUndefined
  | vBool (b : Bool)
  | vNum (n : Int)
  | vStr (s : String)
  | vObj (fields : List (String × JSValue))
  | vArr (elems : List JSValue)

/-- JavaScript `typeof`: note `typeof null === "object"`, and arrays are also
of `typeof` `"object"`. -/
def typeofJS : JSValue → String
  | .vNull => "object"
  | .vUndefined => "undefined"
  | .vBool _ => "boolean"
  | .vNum _ => "number"
  | .vStr _ => "string"
  | .vObj _ => "object"
  | .vArr _ => "object"

/-- JavaScript truthiness: `null`, `undefined`, `false`, `0` and `""` are
falsy; every object and array is truthy. -/
def truthy : JSValue → Bool
  | .vNull => false
  | .vUndefined => false
  | .vBool b => b
  | .vNum n => n != 0
  | .vStr s => s != ""
  | .vObj _ => true
  | .vArr _ => true

/-- `s.startsWith(p)`: the character sequence of `p` is an initial segment of
the character sequence of `s`. -/
def strStartsWith (s p : String) : Bool :=
  p.data.isPrefixOf s.data

/-- `v.startsWith(p)` for a string value `v` (only ever reached after the
`typeof v === 'string'` guard in the source, so the non-string branches are
unreachable there). -/
def jsStartsWith (v : JSValue) (p : String) : Bool :=
  match v with
  | .vStr s => strStartsWith s p
  | _ => false

/-- A constructed `_Options` instance.  The class declares four fields
(`enabled`, `environment`, `operator`, `baseUrl`); a field the constructor
never assigns reads as `vUndefined`, as an unassigned property does in
JavaScript. -/
structure OptionsInstance where
  enabled : JSValue
  environment : JSValue
  operator : JSValue
  baseUrl : JSValue

/-- The source's first guard, transliterated:
`!operator || typeof operator !== 'object'`. -/
def operatorInvalid (operator : JSValue) : Bool :=
  !truthy operator || typeofJS operator != "object"

/-- The source's second guard, transliterated:
`!baseUrl || typeof baseUrl !== 'string' || !baseUrl.startsWith('http')`. -/
def baseUrlInvalid (baseUrl : JSValue) : Bool :=
  !truthy baseUrl || typeofJS baseUrl != "string" || !jsStartsWith baseUrl "http"

/-- The `_Options` constructor
(`src/models/models/client.models.options.model.ts`, lines 194-206):
assigns `environment`, throws `Error('Invalid operator information')` if the
operator guard fires, assigns `operator`, throws `Error('Invalid base URL')`
if the base-URL guard fires, and assigns `baseUrl`.  A throw discards the
partially assigned instance, so the embedding returns only the error message;
success returns the instance, with `enabled` never assigned. -/
def _Options.construct (environment operator baseUrl : JSValue) :
    Except String OptionsInstance :=
  let inst : OptionsInstance :=
    { enabled := .vUndefined, environment := .vUndefined,
      operator := .vUndefined, baseUrl := .vUndefined }
  let inst := { inst with environment := environment }
  if operatorInvalid operator then
    .error "Invalid operator information"
  else
    let inst := { inst with operator := operator }
    if baseUrlInvalid baseUrl then
      .error "Invalid base URL"
    else
      .ok { inst with baseUrl := baseUrl }

/-- Models the external `LedgerId.TESTNET` value from `@hashgraph/sdk`: the
spec treats the network-environment enumeration as an opaque, externally
defined value; at runtime it is a non-null object. -/
def testnetLedger : JSValue :=
  .vObj [("_ledgerId", .vStr "testnet")]

/-- Evaluated form of the constructor: the two guards in order, then the
fully assigned instance. -/
theorem construct_def (e op u : JSValue) :
    _Options.construct e op u =
      if operatorInvalid op then Except.error "Invalid operator information"
      else if baseUrlInvalid u then Except.error "Invalid base URL"
      else Except.ok ⟨.vUndefined, e, op, u⟩ := rfl

/-- A value of `typeof` `"object"` other than `null` is truthy. -/
theorem object_nonnull_truthy (op : JSValue) (hty : typeofJS op = "object")
    (hnn : op ≠ .vNull) : truthy op = true := by
  cases op <;> first
    | rfl
    | exact absurd rfl hnn
    | simp [typeofJS] at hty

/-- The operator guard does not fire on a non-null value of object type. -/
theorem operatorInvalid_false (op : JSValue) (hty : typeofJS op = "object")
    (hnn : op ≠ .vNull) : operatorInvalid op = false := by
  simp [operatorInvalid, object_nonnull_truthy op hty hnn, hty]

/-- If the operator guard fires, construction yields the operator error,
whatever the base URL is. -/
theorem construct_invalid_op (e op u : JSValue)
    (h : operatorInvalid op = true) :
    _Options.construct e op u = .error "Invalid operator information" := by
  rw [construct_def, if_pos h]

/-- The operator guard fires exactly on `null` and on values not of object
type. -/
theorem operatorInvalid_iff (op : JSValue) :
    operatorInvalid op = true ↔ op = .vNull ∨ typeofJS op ≠ "object" := by
  cases op <;> simp [operatorInvalid, truthy, typeofJS]

/-- The base-URL guard does not fire on a non-empty string starting with
`"http"`. -/
theorem baseUrlInvalid_false (s : String) (hpre : strStartsWith s "http" = true)
    (hne : s ≠ "") : baseUrlInvalid (.vStr s) = false := by
  simp [baseUrlInvalid, truthy, typeofJS, jsStartsWith, hpre, hne]

/-- C1: for every input where the operator is a non-null value of object type
and the base URL is a non-empty string starting with "http", the `_Options`
constructor succeeds and the resulting instance's `environment`, `operator`
and `baseUrl` fields are exactly the inputs, unchanged. -/
theorem c1_valid_inputs_fields_identical (e op : JSValue) (s : String)
    (hty : typeofJS op = "object") (hnn : op ≠ .vNull)
    (hne : s ≠ "") (hpre : strStartsWith s "http" = true) :
    _Options.construct e op (.vStr s) =
      .ok { enabled := .vUndefined, environment := e,
            operator := op, baseUrl := .vStr s } := by
  rw [construct_def, if_neg (by simp [operatorInvalid_false op hty hnn]),
    if_neg (by simp [baseUrlInvalid_false s hpre hne])]

/-- Witness for C1 at the spec's first concrete scenario. -/
theorem c1_valid_inputs_fields_identical_witness :
    _Options.construct testnetLedger
        (.vObj [("accountId", .vStr "0.0.123456"),
                ("privateKey", .vStr "302e0201")])
        (.vStr "https://api.example.com") =
      .ok { enabled := .vUndefined, environment := testnetLedger,
            operator := .vObj [("accountId", .vStr "0.0.123456"),
                               ("privateKey", .vStr "302e0201")],
            baseUrl := .vStr "https://api.example.com" } :=
  c1_valid_inputs_fields_identical testnetLedger
    (.vObj [("accountId", .vStr "0.0.123456"),
            ("privateKey", .vStr "302e0201")])
    "https://api.example.com" rfl (fun h => JSValue.noConfusion h)
    (by decide) (by decide)

/-- C2: for every operator that is `null`, `undefined` or not of object type,
the constructor fails with the `Invalid operator information` error, for every
value of the base URL. -/
theorem c2_invalid_operator_rejected (e op u : JSValue)
    (h : op = .vNull ∨ op = .vUndefined ∨ typeofJS op ≠ "object") :
    _Options.construct e op u = .error "Invalid operator information" := by
  apply construct_invalid_op
  rcases h with rfl | rfl | h
  · rfl
  · rfl
  · exact (operatorInvalid_iff op).mpr (Or.inr h)

/-- Witness for C2: `null` operator, valid base URL. -/
theorem c2_invalid_operator_rejected_witness :
    _Options.construct testnetLedger .vNull (.vStr "https://api.example.com") =
      .error "Invalid operator information" :=
  c2_invalid_operator_rejected testnetLedger .vNull
    (.vStr "https://api.example.com") (Or.inl rfl)

/-- C3: for every valid operator (non-null, object type) and every base URL
that is `null`, `undefined`, the empty string, not a string, or a string not
starting with "http", the constructor fails with the `Invalid base URL`
error. -/
theorem c3_invalid_baseUrl_rejected (e op u : JSValue)
    (hty : typeofJS op = "object") (hnn : op ≠ .vNull)
    (h : u = .vNull ∨ u = .vUndefined ∨ u = .vStr "" ∨ typeofJS u ≠ "string"
      ∨ ∃ s, u = .vStr s ∧ strStartsWith s "http" = false) :
    _Options.construct e op u = .error "Invalid base URL" := by
  rw [construct_def, if_neg (by simp [operatorInvalid_false op hty hnn])]
  have hu : baseUrlInvalid u = true := by
    rcases h with rfl | rfl | rfl | h | ⟨s, rfl, hs⟩
    · rfl
    · rfl
    · rfl
    · cases u <;> simp [baseUrlInvalid, truthy, typeofJS, jsStartsWith] at h ⊢
    · simp [baseUrlInvalid, truthy, typeofJS, jsStartsWith, hs]
  rw [if_pos hu]

/-- Witness for C3 at the spec's scenario 4: incomplete-but-object operator,
`ftp` base URL. -/
theorem c3_invalid_baseUrl_rejected_witness :
    _Options.construct testnetLedger (.vObj [("accountId", .vStr "0.0.1")])
        (.vStr "ftp://api.example.com") = .error "Invalid base URL" :=
  c3_invalid_baseUrl_rejected testnetLedger
    (.vObj [("accountId", .vStr "0.0.1")]) (.vStr "ftp://api.example.com")
    rfl (fun h => JSValue.noConfusion h)
    (Or.inr (Or.inr (Or.inr (Or.inr ⟨"ftp://api.example.com", rfl, by decide⟩))))

/-- C4: the operator check comes first: whenever the operator is invalid
(`null` or not of object type), the surfaced error is
`Invalid operator information` and the outcome is the same for every base URL
value, i.e. the base URL is never evaluated. -/
theorem c4_operator_checked_before_baseUrl (e op u₁ u₂ : JSValue)
    (h : op = .vNull ∨ typeofJS op ≠ "object") :
    _Options.construct e op u₁ = .error "Invalid operator information"
      ∧ _Options.construct e op u₁ = _Options.construct e op u₂ := by
  have hop : operatorInvalid op = true := (operatorInvalid_iff op).mpr h
  have h₁ := construct_invalid_op e op u₁ hop
  have h₂ := construct_invalid_op e op u₂ hop
  exact ⟨h₁, h₁.trans h₂.symm⟩

/-- Witness for C4: both operator and base URL `null`. -/
theorem c4_operator_checked_before_baseUrl_witness :
    _Options.construct testnetLedger .vNull .vNull =
        .error "Invalid operator information"
      ∧ _Options.construct testnetLedger .vNull .vNull =
        _Options.construct testnetLedger .vNull .vUndefined :=
  c4_operator_checked_before_baseUrl testnetLedger .vNull .vNull .vUndefined
    (Or.inl rfl)

/-- C5 counterexample: a successful construction whose `enabled` field is
`undefined`, not a boolean — so the returned instance does not have all four
contract fields set, contradicting "fully populated ... (all four contract
fields set)". -/
theorem c5_counterexample :
    _Options.construct testnetLedger (.vObj []) (.vStr "http://x") =
        .ok { enabled := .vUndefined, environment := testnetLedger,
              operator := .vObj [], baseUrl := .vStr "http://x" }
      ∧ typeofJS .vUndefined ≠ "boolean" :=
  ⟨rfl, by decide⟩

/-- C5 (amended): construction is atomic with no partial-success state: every
call either returns an instance whose `environment`, `operator` and `baseUrl`
fields equal the inputs (with `enabled` left `undefined` — not set by the
constructor), or returns no instance at all, failing with one of the two
fixed errors; no other outcome exists. -/
theorem c5_construction_atomic (e op u : JSValue) :
    _Options.construct e op u =
        .ok { enabled := .vUndefined, environment := e,
              operator := op, baseUrl := u }
      ∨ _Options.construct e op u = .error "Invalid operator information"
      ∨ _Options.construct e op u = .error "Invalid base URL" := by
  rw [construct_def]
  split
  · exact Or.inr (Or.inl rfl)
  · split
    · exact Or.inr (Or.inr rfl)
    · exact Or.inl rfl

/-- C6: the `environment` field is never validated: the outcome (success, or
failure with a given message) is the same for any two environment values, on
success the stored `environment` is exactly the input, and the constructor
performs no check involving `enabled` — it is not an input and is left
`undefined` unconditionally. -/
theorem c6_environment_enabled_unvalidated (e₁ e₂ op u : JSValue) :
    (_Options.construct e₁ op u).map (fun _ => ()) =
        (_Options.construct e₂ op u).map (fun _ => ())
      ∧ (_Options.construct e₁ op u).map OptionsInstance.environment =
        (_Options.construct e₁ op u).map (fun _ => e₁)
      ∧ (_Options.construct e₁ op u).map OptionsInstance.enabled =
        (_Options.construct e₁ op u).map (fun _ => JSValue.vUndefined) := by
  cases h₁ : operatorInvalid op <;> cases h₂ : baseUrlInvalid u <;>
    simp [construct_def, h₁, h₂, Except.map]

/-- C7: operator validation is shallow: every non-null value of object type
passes the operator check and is stored as-is; in particular the empty object
passes and `construct(TESTNET, {}, "http://x")` succeeds. -/
theorem c7_shallow_operator_check (e op u : JSValue)
    (hty : typeofJS op = "object") (hnn : op ≠ .vNull) :
    _Options.construct e op u ≠ .error "Invalid operator information"
      ∧ (_Options.construct e op u).map OptionsInstance.operator =
        (_Options.construct e op u).map (fun _ => op)
      ∧ _Options.construct testnetLedger (.vObj []) (.vStr "http://x") =
        .ok { enabled := .vUndefined, environment := testnetLedger,
              operator := .vObj [], baseUrl := .vStr "http://x" } := by
  have hop := operatorInvalid_false op hty hnn
  refine ⟨?_, ?_, rfl⟩
  · rw [construct_def, if_neg (by simp [hop])]
    split <;> simp
  · rw [construct_def, if_neg (by simp [hop])]
    split <;> simp [Except.map]

/-- Witness for C7 at the spec's scenario 5: the empty object as operator. -/
theorem c7_shallow_operator_check_witness :
    _Options.construct testnetLedger (.vObj []) (.vStr "http://x") ≠
        .error "Invalid operator information"
      ∧ (_Options.construct testnetLedger (.vObj []) (.vStr "http://x")).map
          OptionsInstance.operator =
        (_Options.construct testnetLedger (.vObj []) (.vStr "http://x")).map
          (fun _ => JSValue.vObj [])
      ∧ _Options.construct testnetLedger (.vObj []) (.vStr "http://x") =
        .ok { enabled := .vUndefined, environment := testnetLedger,
              operator := .vObj [], baseUrl := .vStr "http://x" } :=
  c7_shallow_operator_check testnetLedger (.vObj []) (.vStr "http://x")
    rfl (fun h => JSValue.noConfusion h)

/-- C8: after every successful construction, the instance's `enabled` field is
`undefined` — the constructor never assigns it — so it is not a boolean and
the instance does not satisfy the four-field contract at runtime. -/
theorem c8_enabled_left_undefined (e op u : JSValue) (inst : OptionsInstance)
    (h : _Options.construct e op u = .ok inst) :
    inst.enabled = .vUndefined ∧ typeofJS inst.enabled ≠ "boolean" := by
  rw [construct_def] at h
  split at h
  · exact absurd h (by simp)
  · split at h
    · exact absurd h (by simp)
    · cases h
      exact ⟨rfl, by show ("undefined" : String) ≠ "boolean"; decide⟩

/-- Witness for C8 at a concrete successful construction. -/
theorem c8_enabled_left_undefined_witness :
    OptionsInstance.enabled
        { enabled := .vUndefined, environment := testnetLedger,
          operator := .vObj [], baseUrl := .vStr "http://x" } = .vUndefined
      ∧ typeofJS (OptionsInstance.enabled
          { enabled := .vUndefined, environment := testnetLedger,
            operator := .vObj [], baseUrl := .vStr "http://x" }) ≠ "boolean" :=
  c8_enabled_left_undefined testnetLedger (.vObj []) (.vStr "http://x")
    { enabled := .vUndefined, environment := testnetLedger,
      operator := .vObj [], baseUrl := .vStr "http://x" } rfl

/-- C9: a JavaScript array is truthy and of `typeof` `"object"`, so it passes
the operator check: construction with `[]` as operator and a valid base URL
succeeds, storing the array as the `operator` field. -/
theorem c9_array_operator_accepted :
    typeofJS (.vArr []) = "object" ∧ truthy (.vArr []) = true
      ∧ _Options.construct testnetLedger (.vArr []) (.vStr "http://x") =
        .ok { enabled := .vUndefined, environment := testnetLedger,
              operator := .vArr [], baseUrl := .vStr "http://x" } :=
  ⟨rfl, rfl, rfl⟩

/-- C10: the constructor has exactly two failure modes with fixed messages:
every failure message is either `Invalid operator information` (exactly when
the operator guard fires) or `Invalid base URL` (exactly when the operator is
valid and the base-URL guard fires). -/
theorem c10_exact_error_messages (e op u : JSValue) (msg : String)
    (h : _Options.construct e op u = .error msg) :
    (msg = "Invalid operator information" ∧ operatorInvalid op = true)
      ∨ (msg = "Invalid base URL" ∧ operatorInvalid op = false
          ∧ baseUrlInvalid u = true) := by
  rw [construct_def] at h
  cases h₁ : operatorInvalid op <;> rw [h₁] at h
  · simp only [Bool.false_eq_true, if_false] at h
    cases h₂ : baseUrlInvalid u <;> rw [h₂] at h
    · exact absurd h (by simp)
    · simp only [if_true] at h
      exact Or.inr ⟨(Except.error.inj h).symm, rfl, rfl⟩
  · simp only [if_true] at h
    exact Or.inl ⟨(Except.error.inj h).symm, rfl⟩

/-- Witness for C10: an operator failure carries the fixed operator message. -/
theorem c10_exact_error_messages_witness :
    ("Invalid operator information" = "Invalid operator information"
        ∧ operatorInvalid .vNull = true)
      ∨ ("Invalid operator information" = "Invalid base URL"
          ∧ operatorInvalid .vNull = false
          ∧ baseUrlInvalid (.vStr "http://x") = true) :=
  c10_exact_error_messages testnetLedger .vNull (.vStr "http://x")
    "Invalid operator information" rfl
